import Mathlib

/-!
# Verification of the power transition controller (`src/gpm-control.c`)

Shallow embedding of the MATE power-manager transition controller in
`src/gpm-control.c`.  Each public operation (`gpm_control_shutdown`,
`gpm_control_suspend`, `gpm_control_hibernate`) is modelled as a pure
function of an `Env` value that records every answer the outside world
(glib settings, libsecret, gnome-keyring, logind over D-Bus) would give
during that one invocation, and returns a `ControlResult`: the C
function's boolean return value, the ordered list of externally
observable actions (the trace), and whether the caller's `GError`
out-parameter was written.
-/

/-- The two sleep transition kinds (`GPM_CONTROL_ACTION_SUSPEND`,
`GPM_CONTROL_ACTION_HIBERNATE`). Shutdown is not a transition kind. -/
inductive TransitionKind where
  | suspend
  | hibernate
deriving DecidableEq, Repr

/-- The privileged logind methods invoked through
`g_dbus_proxy_call_sync`: `"Suspend"`, `"Hibernate"`, `"PowerOff"`. -/
inductive PrivMethod where
  | Suspend
  | Hibernate
  | PowerOff
deriving DecidableEq, Repr

/-- The GSettings boolean keys read by the controller:
`GPM_SETTINGS_LOCK_KEYRING_SUSPEND`, `GPM_SETTINGS_LOCK_KEYRING_HIBERNATE`,
`GPM_SETTINGS_NETWORKMANAGER_SLEEP`. -/
inductive SettingsKey where
  | lockKeyringSuspend
  | lockKeyringHibernate
  | networkmanagerSleep
deriving DecidableEq, Repr

/-- One externally observable action of a controller operation, in the
order the C code performs them. -/
inductive Event where
  /-- `g_settings_get_boolean` of key `k` returned `v`. -/
  | readSetting (k : SettingsKey) (v : Bool)
  /-- `secret_service_get_sync` (connect to the secret service). -/
  | secretServiceConnect
  /-- `secret_service_get_collections`. -/
  | secretGetCollections
  /-- `secret_service_lock_sync` on the enumerated collections. -/
  | secretLockCollections
  /-- `gnome_keyring_lock_all_sync`. -/
  | gnomeKeyringLockAll
  /-- `gpm_networkmanager_sleep()` (network pre-sleep quiesce). -/
  | nmSleepCall
  /-- `gpm_networkmanager_wake()` (network post-wake action). -/
  | nmWakeCall
  /-- `g_signal_emit` of the `sleep` signal carrying kind `k`. -/
  | emitSleep (k : TransitionKind)
  /-- `g_dbus_proxy_new_for_bus_sync` towards `org.freedesktop.login1`. -/
  | privProxyConnect
  /-- `g_dbus_proxy_call_sync` of method `m` with interactive flag `i`. -/
  | privCall (m : PrivMethod) (i : Bool)
  /-- `g_signal_emit` of the `resume` signal carrying kind `k`. -/
  | emitResume (k : TransitionKind)
deriving DecidableEq, Repr

/-- Which secret back-ends the source was compiled with
(`WITH_LIBSECRET` / `WITH_KEYRING` preprocessor conditionals). -/
structure BuildConfig where
  withLibsecret : Bool
  withKeyring : Bool
deriving DecidableEq, Repr

/-- The answers the environment gives to one controller invocation.
Each field corresponds to one call site in the C code; GSettings values
are recorded per read site because the code re-reads them
(`nmSleepPre` is the value `GPM_SETTINGS_NETWORKMANAGER_SLEEP` has at
the pre-sleep read, `nmSleepPost` its value at the post-resume read;
they may differ because the configuration store can change out of
process between the two reads). -/
structure Env where
  /-- `LOGIND_RUNNING()` at function entry. -/
  logindAtEntry : Bool
  /-- Value of `GPM_SETTINGS_LOCK_KEYRING_SUSPEND`. -/
  lockSuspendKey : Bool
  /-- Value of `GPM_SETTINGS_LOCK_KEYRING_HIBERNATE`. -/
  lockHibernateKey : Bool
  /-- Value of `GPM_SETTINGS_NETWORKMANAGER_SLEEP` at the pre-sleep read. -/
  nmSleepPre : Bool
  /-- `secret_service_get_sync` returns non-NULL. On NULL it has written
  the caller's `GError`. -/
  secretConnectOk : Bool
  /-- `secret_service_get_collections` returns a non-NULL list. -/
  secretCollectionsNonEmpty : Bool
  /-- Return value of `secret_service_lock_sync`; negative means the
  call failed and wrote the caller's `GError`. -/
  numSecretsLocked : Int
  /-- `gnome_keyring_lock_all_sync() == GNOME_KEYRING_RESULT_OK`. -/
  keyringLockOk : Bool
  /-- `LOGIND_RUNNING()` at the re-check just before the privileged call. -/
  logindAtCall : Bool
  /-- `g_dbus_proxy_new_for_bus_sync` returns non-NULL. -/
  proxyConnectOk : Bool
  /-- `g_dbus_proxy_call_sync` left a non-NULL (local) `GError`:
  the remote call reported an application-level error. -/
  dbusCallErr : Bool
  /-- Value of `GPM_SETTINGS_NETWORKMANAGER_SLEEP` at the post-resume read. -/
  nmSleepPost : Bool
deriving DecidableEq, Repr

/-- Result of one controller operation: the C boolean return value, the
trace of observable actions, and whether the caller's `GError`
out-parameter was written. -/
structure ControlResult where
  ret : Bool
  trace : List Event
  errorWritten : Bool
deriving DecidableEq, Repr

/-- The `WITH_LIBSECRET` block of `gpm_control_suspend` (lines 151-177)
and `gpm_control_hibernate` (lines 258-284), parameterized by which
settings key the block reads (`key`) and that key's value (`keyVal`).
Both call sites in the source pass `GPM_SETTINGS_LOCK_KEYRING_SUSPEND`.
Returns the events performed and whether the caller's `GError` was
written (`secret_service_get_sync` and `secret_service_lock_sync` both
receive the caller's `error`). -/
def libsecretLockBlock (env : Env) (key : SettingsKey) (keyVal : Bool) :
    List Event × Bool :=
  if keyVal then
    if !env.secretConnectOk then
      ([Event.readSetting key keyVal, Event.secretServiceConnect], true)
    else if !env.secretCollectionsNonEmpty then
      ([Event.readSetting key keyVal, Event.secretServiceConnect,
        Event.secretGetCollections], false)
    else
      ([Event.readSetting key keyVal, Event.secretServiceConnect,
        Event.secretGetCollections, Event.secretLockCollections],
       env.numSecretsLocked < 0)
  else
    ([Event.readSetting key keyVal], false)

/-- The `WITH_KEYRING` block of `gpm_control_suspend` (lines 178-186,
reading `GPM_SETTINGS_LOCK_KEYRING_SUSPEND`) and of
`gpm_control_hibernate` (lines 285-295, reading
`GPM_SETTINGS_LOCK_KEYRING_HIBERNATE`), parameterized by the key read.
`gnome_keyring_lock_all_sync` takes no `GError`, so nothing is written
to the caller's error; a non-OK result is only warned about. -/
def gnomeKeyringLockBlock (key : SettingsKey) (keyVal : Bool) :
    List Event :=
  if keyVal then [Event.readSetting key keyVal, Event.gnomeKeyringLockAll]
  else [Event.readSetting key keyVal]

/-- The pre-sleep network quiesce step (suspend lines 188-190, hibernate
lines 297-299): read `GPM_SETTINGS_NETWORKMANAGER_SLEEP` and call
`gpm_networkmanager_sleep()` if it is true. -/
def nmPreBlock (env : Env) : List Event :=
  if env.nmSleepPre then
    [Event.readSetting SettingsKey.networkmanagerSleep true,
     Event.nmSleepCall]
  else
    [Event.readSetting SettingsKey.networkmanagerSleep false]

/-- The tail shared by suspend (lines 221-226) and hibernate
(lines 329-334) after the logind block: emit `resume` carrying the
transition kind, re-read `GPM_SETTINGS_NETWORKMANAGER_SLEEP` and call
`gpm_networkmanager_wake()` if it is true, then return `ret`. -/
def finishTransition (env : Env) (k : TransitionKind) (t : List Event)
    (errW ret : Bool) : ControlResult :=
  let t := t ++ [Event.emitResume k,
    Event.readSetting SettingsKey.networkmanagerSleep env.nmSleepPost]
  let t := if env.nmSleepPost then t ++ [Event.nmWakeCall] else t
  ⟨ret, t, errW⟩

/-- Model of `gpm_control_suspend` (lines 128-230).  `ret` starts FALSE; if
`LOGIND_RUNNING()` is false at entry the function jumps to `out` with no
side effects.  Otherwise: libsecret lock block (key
`GPM_SETTINGS_LOCK_KEYRING_SUSPEND`), gnome-keyring lock block (same
key), network pre-sleep, emit `sleep` with `GPM_CONTROL_ACTION_SUSPEND`,
then if `LOGIND_RUNNING()` again: connect a proxy (on failure `ret =
FALSE`, `goto out`), call `"Suspend"` with interactive flag FALSE and
set `ret = TRUE` whether or not the call reported an error; finally emit
`resume` and do the network post-wake step. -/
def gpm_control_suspend (cfg : BuildConfig) (env : Env) : ControlResult :=
  if !env.logindAtEntry then ⟨false, [], false⟩
  else
    let ls := if cfg.withLibsecret then
        libsecretLockBlock env SettingsKey.lockKeyringSuspend
          env.lockSuspendKey
      else ([], false)
    let kr := if cfg.withKeyring then
        gnomeKeyringLockBlock SettingsKey.lockKeyringSuspend
          env.lockSuspendKey
      else []
    let t := ls.1 ++ kr ++ nmPreBlock env
      ++ [Event.emitSleep TransitionKind.suspend]
    if env.logindAtCall then
      let t := t ++ [Event.privProxyConnect]
      if !env.proxyConnectOk then ⟨false, t, ls.2⟩
      else
        let t := t ++ [Event.privCall PrivMethod.Suspend false]
        finishTransition env TransitionKind.suspend t ls.2 true
    else
      finishTransition env TransitionKind.suspend t ls.2 false

/-- Model of `gpm_control_hibernate` (lines 235-338).  Same shape as
`gpm_control_suspend`, except: the libsecret block reads
`GPM_SETTINGS_LOCK_KEYRING_SUSPEND` (line 261, as in suspend) while the
gnome-keyring block reads `GPM_SETTINGS_LOCK_KEYRING_HIBERNATE`
(line 288); the privileged call is `"Hibernate"`; the emitted kind is
`GPM_CONTROL_ACTION_HIBERNATE`. -/
def gpm_control_hibernate (cfg : BuildConfig) (env : Env) : ControlResult :=
  if !env.logindAtEntry then ⟨false, [], false⟩
  else
    let ls := if cfg.withLibsecret then
        libsecretLockBlock env SettingsKey.lockKeyringSuspend
          env.lockSuspendKey
      else ([], false)
    let kr := if cfg.withKeyring then
        gnomeKeyringLockBlock SettingsKey.lockKeyringHibernate
          env.lockHibernateKey
      else []
    let t := ls.1 ++ kr ++ nmPreBlock env
      ++ [Event.emitSleep TransitionKind.hibernate]
    if env.logindAtCall then
      let t := t ++ [Event.privProxyConnect]
      if !env.proxyConnectOk then ⟨false, t, ls.2⟩
      else
        let t := t ++ [Event.privCall PrivMethod.Hibernate false]
        finishTransition env TransitionKind.hibernate t ls.2 true
    else
      finishTransition env TransitionKind.hibernate t ls.2 false

/-- Model of `gpm_control_systemd_shutdown` (lines 81-108): connect a proxy to
`org.freedesktop.login1` (on failure return FALSE), call `"PowerOff"`
with interactive flag FALSE, return FALSE if the call reported an error
and TRUE otherwise.  The local `GError` is never the caller's. -/
def gpm_control_systemd_shutdown (env : Env) : ControlResult :=
  if !env.proxyConnectOk then ⟨false, [Event.privProxyConnect], false⟩
  else if env.dbusCallErr then
    ⟨false, [Event.privProxyConnect,
      Event.privCall PrivMethod.PowerOff false], false⟩
  else
    ⟨true, [Event.privProxyConnect,
      Event.privCall PrivMethod.PowerOff false], false⟩

/-- Model of `gpm_control_shutdown` (lines 116-123): `ret` starts FALSE; if
`LOGIND_RUNNING()` it is set to `gpm_control_systemd_shutdown()`. -/
def gpm_control_shutdown (env : Env) : ControlResult :=
  if env.logindAtEntry then gpm_control_systemd_shutdown env
  else ⟨false, [], false⟩

/-!
## Singleton lifecycle (`gpm_control_new`, line 387-395)

`gpm_control_object` (line 60) is a static pointer; `gpm_control_new`
returns it with an extra reference when it is non-NULL, and otherwise
allocates a fresh object, stores it there and registers the static
pointer as a weak pointer (`g_object_add_weak_pointer`), so that glib
clears it when the object's reference count drops to zero and the
object is finalized.  We model the GObject reference-count machinery
explicitly: instances are identified by allocation numbers, `obj` is
the static (weak) pointer, `refs` the reference count of the live
instance (`0` when there is none), and `nextId` the allocator state. -/
structure SingletonState where
  obj : Option Nat
  refs : Nat
  nextId : Nat
deriving DecidableEq, Repr

/-- The process state before any `gpm_control_new` call:
`gpm_control_object = NULL`. -/
def initialSingletonState : SingletonState := ⟨none, 0, 0⟩

/-- Model of `gpm_control_new` (lines 387-395): if `gpm_control_object` is
non-NULL, `g_object_ref` it; otherwise `g_object_new` a fresh instance,
store it in `gpm_control_object` and add the weak pointer.  Returns the
instance handed to the caller together with the new process state. -/
def gpm_control_new (s : SingletonState) : Nat × SingletonState :=
  match s.obj with
  | some i => (i, { s with refs := s.refs + 1 })
  | none => (s.nextId, ⟨some s.nextId, 1, s.nextId + 1⟩)

/-- Model of `g_object_unref` on the controller instance: decrement the
reference count; when it reaches zero the instance is finalized and the
registered weak pointer (`gpm_control_object`) is cleared to NULL by
glib.  A no-op when no instance is live. -/
def gpm_control_unref (s : SingletonState) : SingletonState :=
  match s.obj with
  | some _ =>
    if s.refs ≤ 1 then { s with obj := none, refs := 0 }
    else { s with refs := s.refs - 1 }
  | none => s

/-- Well-formedness of the singleton state: a live instance was
allocated by the allocator (its id is below `nextId`).  Holds for
`initialSingletonState` and is preserved by both operations. -/
def SingletonState.WF (s : SingletonState) : Prop :=
  ∀ i, s.obj = some i → i < s.nextId

/-!
## Helper decompositions of the transition traces
-/

/-- The events a suspend/hibernate invocation performs before emitting
the `sleep` signal: the (build-conditional) libsecret block, the
(build-conditional) gnome-keyring block with its key, and the network
pre-sleep step. -/
def lockAndNetPre (cfg : BuildConfig) (env : Env) (krKey : SettingsKey)
    (krVal : Bool) : List Event :=
  (if cfg.withLibsecret then
      (libsecretLockBlock env SettingsKey.lockKeyringSuspend
        env.lockSuspendKey).1
    else [])
  ++ (if cfg.withKeyring then gnomeKeyringLockBlock krKey krVal else [])
  ++ nmPreBlock env

/-- The events a suspend/hibernate invocation performs after emitting
the `resume` signal: the fresh re-read of
`GPM_SETTINGS_NETWORKMANAGER_SLEEP` and, if it is true, the network
post-wake call. -/
def postTrace (env : Env) : List Event :=
  Event.readSetting SettingsKey.networkmanagerSleep env.nmSleepPost ::
    (if env.nmSleepPost then [Event.nmWakeCall] else [])

/-- Events that can occur during the pre-sleep phase (settings reads,
secret/keyring locking, the network pre-sleep call). -/
def Event.isPreSleepKind : Event → Bool
  | Event.readSetting _ _ => true
  | Event.secretServiceConnect => true
  | Event.secretGetCollections => true
  | Event.secretLockCollections => true
  | Event.gnomeKeyringLockAll => true
  | Event.nmSleepCall => true
  | _ => false

/-- Events that can occur during the post-resume phase. -/
def Event.isPostWakeKind : Event → Bool
  | Event.readSetting _ _ => true
  | Event.nmWakeCall => true
  | _ => false

/-- Build with only the libsecret back-end enabled (the modern default
configuration). -/
def cfgLibsecret : BuildConfig := ⟨true, false⟩

/-- Build with both secret back-ends enabled. -/
def cfgBoth : BuildConfig := ⟨true, true⟩

/-- A fully cooperative environment: logind available throughout, every
setting true, every subsystem call succeeding, no remote call error. -/
def envAllOk : Env := ⟨true, true, true, true, true, true, 1, true, true, true, false, true⟩

/-- Like `envAllOk` but with the login manager unavailable at entry. -/
def envNoLogind : Env := ⟨false, true, true, true, true, true, 1, true, true, true, false, true⟩

/-- Like `envAllOk` but with the availability re-check before the privileged
call failing. -/
def envRecheckFail : Env := ⟨true, true, true, true, true, true, 1, true, false, true, false, true⟩

/-- Like `envAllOk` but with the D-Bus proxy connection to logind failing. -/
def envProxyFail : Env := ⟨true, true, true, true, true, true, 1, true, true, false, false, true⟩

/-- Like `envAllOk` but with the privileged remote call reporting an
application-level error. -/
def envDbusErr : Env := ⟨true, true, true, true, true, true, 1, true, true, true, true, true⟩

/-- Like `envAllOk` but with the secret-service connection failing. -/
def envSecretFail : Env := ⟨true, true, true, true, false, true, 1, true, true, true, false, true⟩

/-- Environment with `lock-keyring-on-suspend` true and
`lock-keyring-on-hibernate` false, everything else cooperative. -/
def envHibKeyOff : Env := ⟨true, true, false, true, true, true, 1, true, true, true, false, true⟩

/-- Replace the four credential-lock outcome fields of an environment,
leaving everything else unchanged. -/
def Env.withLockOutcomes (env : Env) (c ce : Bool) (n : Int) (kb : Bool) : Env :=
  ⟨env.logindAtEntry, env.lockSuspendKey, env.lockHibernateKey,
   env.nmSleepPre, c, ce, n, kb, env.logindAtCall, env.proxyConnectOk,
   env.dbusCallErr, env.nmSleepPost⟩

/-!
## Basic lemmas
-/

section Lemmas

variable (cfg : BuildConfig) (env : Env)

/-- The boolean outcome of `gpm_control_suspend` depends only on the
availability probes and the proxy connection. -/
theorem suspend_ret_formula :
    (gpm_control_suspend cfg env).ret =
      (env.logindAtEntry && (env.logindAtCall && env.proxyConnectOk)) := by
  unfold gpm_control_suspend
  cases hE : env.logindAtEntry <;>
    cases hC : env.logindAtCall <;>
      cases hP : env.proxyConnectOk <;>
        simp [hE, hC, hP, finishTransition]

/-- The boolean outcome of `gpm_control_hibernate` depends only on the
availability probes and the proxy connection. -/
theorem hibernate_ret_formula :
    (gpm_control_hibernate cfg env).ret =
      (env.logindAtEntry && (env.logindAtCall && env.proxyConnectOk)) := by
  unfold gpm_control_hibernate
  cases hE : env.logindAtEntry <;>
    cases hC : env.logindAtCall <;>
      cases hP : env.proxyConnectOk <;>
        simp [hE, hC, hP, finishTransition]

end Lemmas

section Lemmas2

variable (cfg : BuildConfig) (env : Env)

/-- The caller's error out-parameter is written exactly when the
invocation passed the entry gate and the libsecret block wrote it. -/
theorem suspend_errW_formula :
    (gpm_control_suspend cfg env).errorWritten =
      (env.logindAtEntry &&
        (if cfg.withLibsecret then
          (libsecretLockBlock env SettingsKey.lockKeyringSuspend
            env.lockSuspendKey).2
         else false)) := by
  unfold gpm_control_suspend
  cases hE : env.logindAtEntry <;>
    cases hC : env.logindAtCall <;>
      cases hP : env.proxyConnectOk <;>
        cases hL : cfg.withLibsecret <;>
          simp [hE, hC, hP, hL, finishTransition]

/-- Same error-propagation formula for hibernate (its libsecret block
also reads `GPM_SETTINGS_LOCK_KEYRING_SUSPEND`). -/
theorem hibernate_errW_formula :
    (gpm_control_hibernate cfg env).errorWritten =
      (env.logindAtEntry &&
        (if cfg.withLibsecret then
          (libsecretLockBlock env SettingsKey.lockKeyringSuspend
            env.lockSuspendKey).2
         else false)) := by
  unfold gpm_control_hibernate
  cases hE : env.logindAtEntry <;>
    cases hC : env.logindAtCall <;>
      cases hP : env.proxyConnectOk <;>
        cases hL : cfg.withLibsecret <;>
          simp [hE, hC, hP, hL, finishTransition]

/-- Trace of a suspend invocation that reaches the privileged call. -/
theorem suspend_trace_dispatch (h1 : env.logindAtEntry = true)
    (h2 : env.logindAtCall = true) (h3 : env.proxyConnectOk = true) :
    (gpm_control_suspend cfg env).trace =
      lockAndNetPre cfg env SettingsKey.lockKeyringSuspend
          env.lockSuspendKey
        ++ [Event.emitSleep TransitionKind.suspend, Event.privProxyConnect,
            Event.privCall PrivMethod.Suspend false,
            Event.emitResume TransitionKind.suspend]
        ++ postTrace env := by
  unfold gpm_control_suspend
  cases hL : cfg.withLibsecret <;>
    cases hN : env.nmSleepPost <;>
      simp [h1, h2, h3, hN, hL, finishTransition, lockAndNetPre, postTrace]

/-- Trace of a suspend invocation whose proxy connection fails. -/
theorem suspend_trace_proxy_fail (h1 : env.logindAtEntry = true)
    (h2 : env.logindAtCall = true) (h3 : env.proxyConnectOk = false) :
    (gpm_control_suspend cfg env).trace =
      lockAndNetPre cfg env SettingsKey.lockKeyringSuspend
          env.lockSuspendKey
        ++ [Event.emitSleep TransitionKind.suspend,
            Event.privProxyConnect] := by
  unfold gpm_control_suspend
  cases hL : cfg.withLibsecret <;>
    simp [h1, h2, h3, hL, lockAndNetPre]

/-- Trace of a suspend invocation whose availability re-check fails:
the logind block is skipped but the resume emission and the network
post-wake step still run. -/
theorem suspend_trace_recheck_fail (h1 : env.logindAtEntry = true)
    (h2 : env.logindAtCall = false) :
    (gpm_control_suspend cfg env).trace =
      lockAndNetPre cfg env SettingsKey.lockKeyringSuspend
          env.lockSuspendKey
        ++ [Event.emitSleep TransitionKind.suspend,
            Event.emitResume TransitionKind.suspend]
        ++ postTrace env := by
  unfold gpm_control_suspend
  cases hL : cfg.withLibsecret <;>
    cases hN : env.nmSleepPost <;>
      simp [h1, h2, hN, hL, finishTransition, lockAndNetPre, postTrace]

/-- Trace of a hibernate invocation that reaches the privileged call. -/
theorem hibernate_trace_dispatch (h1 : env.logindAtEntry = true)
    (h2 : env.logindAtCall = true) (h3 : env.proxyConnectOk = true) :
    (gpm_control_hibernate cfg env).trace =
      lockAndNetPre cfg env SettingsKey.lockKeyringHibernate
          env.lockHibernateKey
        ++ [Event.emitSleep TransitionKind.hibernate, Event.privProxyConnect,
            Event.privCall PrivMethod.Hibernate false,
            Event.emitResume TransitionKind.hibernate]
        ++ postTrace env := by
  unfold gpm_control_hibernate
  cases hL : cfg.withLibsecret <;>
    cases hN : env.nmSleepPost <;>
      simp [h1, h2, h3, hN, hL, finishTransition, lockAndNetPre, postTrace]

/-- Trace of a hibernate invocation whose proxy connection fails. -/
theorem hibernate_trace_proxy_fail (h1 : env.logindAtEntry = true)
    (h2 : env.logindAtCall = true) (h3 : env.proxyConnectOk = false) :
    (gpm_control_hibernate cfg env).trace =
      lockAndNetPre cfg env SettingsKey.lockKeyringHibernate
          env.lockHibernateKey
        ++ [Event.emitSleep TransitionKind.hibernate,
            Event.privProxyConnect] := by
  unfold gpm_control_hibernate
  cases hL : cfg.withLibsecret <;>
    simp [h1, h2, h3, hL, lockAndNetPre]

/-- Trace of a hibernate invocation whose availability re-check fails. -/
theorem hibernate_trace_recheck_fail (h1 : env.logindAtEntry = true)
    (h2 : env.logindAtCall = false) :
    (gpm_control_hibernate cfg env).trace =
      lockAndNetPre cfg env SettingsKey.lockKeyringHibernate
          env.lockHibernateKey
        ++ [Event.emitSleep TransitionKind.hibernate,
            Event.emitResume TransitionKind.hibernate]
        ++ postTrace env := by
  unfold gpm_control_hibernate
  cases hL : cfg.withLibsecret <;>
    cases hN : env.nmSleepPost <;>
      simp [h1, h2, hN, hL, finishTransition, lockAndNetPre, postTrace]

end Lemmas2
section Lemmas3

variable (cfg : BuildConfig) (env : Env) (k : SettingsKey) (v : Bool)


/-- Every event of the pre-sleep phase is of pre-sleep kind: none of
the emissions, privileged calls or post-wake actions occur there. -/
theorem mem_lockAndNetPre_kind (e : Event)
    (h : e ∈ lockAndNetPre cfg env k v) :
    e.isPreSleepKind = true := by
  unfold lockAndNetPre libsecretLockBlock gnomeKeyringLockBlock
    nmPreBlock at h
  split_ifs at h <;>
    simp only [List.mem_append, List.mem_cons, List.mem_singleton,
      List.not_mem_nil, or_false, false_or] at h <;>
    (try casesm* _ ∨ _) <;> subst_vars <;> rfl

/-- The network pre-sleep call happens in the pre-sleep phase exactly
when the setting read true. -/
theorem nmSleepCall_mem_lockAndNetPre :
    Event.nmSleepCall ∈ lockAndNetPre cfg env k v ↔
      env.nmSleepPre = true := by
  unfold lockAndNetPre libsecretLockBlock gnomeKeyringLockBlock nmPreBlock
  split_ifs <;> simp_all


/-- Every event of the post-resume phase is the settings re-read or the
network post-wake call. -/
theorem mem_postTrace_kind (e : Event) (h : e ∈ postTrace env) :
    e.isPostWakeKind = true := by
  unfold postTrace at h
  split_ifs at h <;>
    simp only [List.mem_append, List.mem_cons, List.mem_singleton,
      List.not_mem_nil, or_false, false_or] at h <;>
    (try casesm* _ ∨ _) <;> subst_vars <;> rfl

/-- The network post-wake call happens in the post-resume phase exactly
when the re-read setting is true. -/
theorem nmWakeCall_mem_postTrace :
    Event.nmWakeCall ∈ postTrace env ↔ env.nmSleepPost = true := by
  unfold postTrace
  split_ifs <;> simp_all

end Lemmas3


section Lemmas4

variable (cfg : BuildConfig) (env : Env) (k : SettingsKey) (v : Bool)

/-- No sleep/resume emission, privileged action or post-wake call
occurs during the pre-sleep phase. -/
theorem emit_priv_not_mem_lockAndNetPre (e : Event)
    (he : e.isPreSleepKind = false) : e ∉ lockAndNetPre cfg env k v :=
  fun h => by
    have := mem_lockAndNetPre_kind cfg env k v e h
    rw [he] at this
    exact Bool.false_ne_true this

/-- No sleep/resume emission, privileged action or pre-sleep call
occurs during the post-resume phase. -/
theorem emit_priv_not_mem_postTrace (e : Event)
    (he : e.isPostWakeKind = false) : e ∉ postTrace env :=
  fun h => by
    have := mem_postTrace_kind env e h
    rw [he] at this
    exact Bool.false_ne_true this

end Lemmas4

section Lemmas5

variable (cfg : BuildConfig) (env : Env)

/-- The network pre-sleep call occurs in a suspend invocation exactly
when the entry gate passed and the pre-sleep read of the setting was
true. -/
theorem suspend_nmSleep_iff :
    Event.nmSleepCall ∈ (gpm_control_suspend cfg env).trace ↔
      (env.logindAtEntry = true ∧ env.nmSleepPre = true) := by
  cases hE : env.logindAtEntry
  · unfold gpm_control_suspend
    simp [hE]
  · cases hC : env.logindAtCall
    · rw [suspend_trace_recheck_fail cfg env hE hC]
      simp [List.mem_append, nmSleepCall_mem_lockAndNetPre,
        emit_priv_not_mem_postTrace env Event.nmSleepCall rfl]
    · cases hP : env.proxyConnectOk
      · rw [suspend_trace_proxy_fail cfg env hE hC hP]
        simp [List.mem_append, nmSleepCall_mem_lockAndNetPre]
      · rw [suspend_trace_dispatch cfg env hE hC hP]
        simp [List.mem_append, nmSleepCall_mem_lockAndNetPre,
          emit_priv_not_mem_postTrace env Event.nmSleepCall rfl]

/-- The network post-wake call occurs in a suspend invocation exactly
when the entry gate passed, the invocation did not abort on a failed
proxy connection, and the post-resume re-read of the setting was true. -/
theorem suspend_nmWake_iff :
    Event.nmWakeCall ∈ (gpm_control_suspend cfg env).trace ↔
      (env.logindAtEntry = true ∧
       (env.logindAtCall = false ∨ env.proxyConnectOk = true) ∧
       env.nmSleepPost = true) := by
  cases hE : env.logindAtEntry
  · unfold gpm_control_suspend
    simp [hE]
  · cases hC : env.logindAtCall
    · rw [suspend_trace_recheck_fail cfg env hE hC]
      simp [List.mem_append, nmWakeCall_mem_postTrace,
        emit_priv_not_mem_lockAndNetPre cfg env _ _ Event.nmWakeCall rfl]
    · cases hP : env.proxyConnectOk
      · rw [suspend_trace_proxy_fail cfg env hE hC hP]
        simp [List.mem_append,
          emit_priv_not_mem_lockAndNetPre cfg env _ _ Event.nmWakeCall rfl]
      · rw [suspend_trace_dispatch cfg env hE hC hP]
        simp [List.mem_append, nmWakeCall_mem_postTrace,
          emit_priv_not_mem_lockAndNetPre cfg env _ _ Event.nmWakeCall rfl]

/-- The network pre-sleep call occurs in a hibernate invocation exactly
when the entry gate passed and the pre-sleep read of the setting was
true. -/
theorem hibernate_nmSleep_iff :
    Event.nmSleepCall ∈ (gpm_control_hibernate cfg env).trace ↔
      (env.logindAtEntry = true ∧ env.nmSleepPre = true) := by
  cases hE : env.logindAtEntry
  · unfold gpm_control_hibernate
    simp [hE]
  · cases hC : env.logindAtCall
    · rw [hibernate_trace_recheck_fail cfg env hE hC]
      simp [List.mem_append, nmSleepCall_mem_lockAndNetPre,
        emit_priv_not_mem_postTrace env Event.nmSleepCall rfl]
    · cases hP : env.proxyConnectOk
      · rw [hibernate_trace_proxy_fail cfg env hE hC hP]
        simp [List.mem_append, nmSleepCall_mem_lockAndNetPre]
      · rw [hibernate_trace_dispatch cfg env hE hC hP]
        simp [List.mem_append, nmSleepCall_mem_lockAndNetPre,
          emit_priv_not_mem_postTrace env Event.nmSleepCall rfl]

/-- The network post-wake call occurs in a hibernate invocation exactly
when the entry gate passed, the invocation did not abort on a failed
proxy connection, and the post-resume re-read of the setting was true. -/
theorem hibernate_nmWake_iff :
    Event.nmWakeCall ∈ (gpm_control_hibernate cfg env).trace ↔
      (env.logindAtEntry = true ∧
       (env.logindAtCall = false ∨ env.proxyConnectOk = true) ∧
       env.nmSleepPost = true) := by
  cases hE : env.logindAtEntry
  · unfold gpm_control_hibernate
    simp [hE]
  · cases hC : env.logindAtCall
    · rw [hibernate_trace_recheck_fail cfg env hE hC]
      simp [List.mem_append, nmWakeCall_mem_postTrace,
        emit_priv_not_mem_lockAndNetPre cfg env _ _ Event.nmWakeCall rfl]
    · cases hP : env.proxyConnectOk
      · rw [hibernate_trace_proxy_fail cfg env hE hC hP]
        simp [List.mem_append,
          emit_priv_not_mem_lockAndNetPre cfg env _ _ Event.nmWakeCall rfl]
      · rw [hibernate_trace_dispatch cfg env hE hC hP]
        simp [List.mem_append, nmWakeCall_mem_postTrace,
          emit_priv_not_mem_lockAndNetPre cfg env _ _ Event.nmWakeCall rfl]

end Lemmas5

/-!
## Claims
-/

/-- C1: For every invocation of suspend() or hibernate() in which the
login manager is reported unavailable at entry, the operation returns
failure and performs zero side effects: no keyring lock, no network
quiesce, no sleep or resume broadcast, and no privileged IPC call (the
trace is empty and the caller's error is untouched). -/
theorem C1_login_unavailable_noop (cfg : BuildConfig) (env : Env)
    (h : env.logindAtEntry = false) :
    gpm_control_suspend cfg env = ⟨false, [], false⟩ ∧
    gpm_control_hibernate cfg env = ⟨false, [], false⟩ := by
  unfold gpm_control_suspend gpm_control_hibernate
  simp [h]

/-- Witness for C1 at a concrete environment with logind unavailable. -/
theorem C1_login_unavailable_noop_witness :
    gpm_control_suspend cfgLibsecret envNoLogind = ⟨false, [], false⟩ ∧
    gpm_control_hibernate cfgLibsecret envNoLogind = ⟨false, [], false⟩ :=
  C1_login_unavailable_noop cfgLibsecret envNoLogind rfl

/-- C2: In every suspend/hibernate invocation that reaches the
privileged-call step, the "about to sleep" event carrying the
TransitionKind is broadcast strictly before the privileged
Suspend/Hibernate call is dispatched, and the "resumed" event carrying
the same TransitionKind strictly after the call is attempted, whatever
the remote call reported (`env.dbusCallErr` is unconstrained): the
trace decomposes as pre-sleep work, then exactly
sleep-emission / proxy connect / privileged call / resume-emission,
then the post-resume work. -/
theorem C2_sleep_before_call_before_resume (cfg : BuildConfig) (env : Env)
    (h1 : env.logindAtEntry = true) (h2 : env.logindAtCall = true)
    (h3 : env.proxyConnectOk = true) :
    (gpm_control_suspend cfg env).trace =
      lockAndNetPre cfg env SettingsKey.lockKeyringSuspend
          env.lockSuspendKey
        ++ [Event.emitSleep TransitionKind.suspend, Event.privProxyConnect,
            Event.privCall PrivMethod.Suspend false,
            Event.emitResume TransitionKind.suspend]
        ++ postTrace env ∧
    (gpm_control_hibernate cfg env).trace =
      lockAndNetPre cfg env SettingsKey.lockKeyringHibernate
          env.lockHibernateKey
        ++ [Event.emitSleep TransitionKind.hibernate, Event.privProxyConnect,
            Event.privCall PrivMethod.Hibernate false,
            Event.emitResume TransitionKind.hibernate]
        ++ postTrace env :=
  ⟨suspend_trace_dispatch cfg env h1 h2 h3,
   hibernate_trace_dispatch cfg env h1 h2 h3⟩

/-- Witness for C2 at a concrete environment where the privileged call
reports an application-level error. -/
theorem C2_sleep_before_call_before_resume_witness :
    (gpm_control_suspend cfgLibsecret envDbusErr).trace =
      lockAndNetPre cfgLibsecret envDbusErr SettingsKey.lockKeyringSuspend
          envDbusErr.lockSuspendKey
        ++ [Event.emitSleep TransitionKind.suspend, Event.privProxyConnect,
            Event.privCall PrivMethod.Suspend false,
            Event.emitResume TransitionKind.suspend]
        ++ postTrace envDbusErr ∧
    (gpm_control_hibernate cfgLibsecret envDbusErr).trace =
      lockAndNetPre cfgLibsecret envDbusErr SettingsKey.lockKeyringHibernate
          envDbusErr.lockHibernateKey
        ++ [Event.emitSleep TransitionKind.hibernate, Event.privProxyConnect,
            Event.privCall PrivMethod.Hibernate false,
            Event.emitResume TransitionKind.hibernate]
        ++ postTrace envDbusErr :=
  C2_sleep_before_call_before_resume cfgLibsecret envDbusErr rfl rfl rfl

/-- C4: When the privileged remote call returns an application-level
error reply (not a connection failure), suspend() and hibernate() still
return success and still broadcast the "resumed" event. -/
theorem C4_remote_error_still_success (cfg : BuildConfig) (env : Env)
    (h1 : env.logindAtEntry = true) (h2 : env.logindAtCall = true)
    (h3 : env.proxyConnectOk = true) (herr : env.dbusCallErr = true) :
    ((gpm_control_suspend cfg env).ret = true ∧
      Event.emitResume TransitionKind.suspend ∈
        (gpm_control_suspend cfg env).trace) ∧
    ((gpm_control_hibernate cfg env).ret = true ∧
      Event.emitResume TransitionKind.hibernate ∈
        (gpm_control_hibernate cfg env).trace) := by
  refine ⟨⟨?_, ?_⟩, ?_, ?_⟩
  · rw [suspend_ret_formula]
    simp [h1, h2, h3]
  · rw [suspend_trace_dispatch cfg env h1 h2 h3]
    simp
  · rw [hibernate_ret_formula]
    simp [h1, h2, h3]
  · rw [hibernate_trace_dispatch cfg env h1 h2 h3]
    simp

/-- Witness for C4 at a concrete environment with a remote error. -/
theorem C4_remote_error_still_success_witness :
    ((gpm_control_suspend cfgLibsecret envDbusErr).ret = true ∧
      Event.emitResume TransitionKind.suspend ∈
        (gpm_control_suspend cfgLibsecret envDbusErr).trace) ∧
    ((gpm_control_hibernate cfgLibsecret envDbusErr).ret = true ∧
      Event.emitResume TransitionKind.hibernate ∈
        (gpm_control_hibernate cfgLibsecret envDbusErr).trace) :=
  C4_remote_error_still_success cfgLibsecret envDbusErr rfl rfl rfl rfl

/-- C5 counterexample: with the login manager available at entry but the
re-derived availability check failing before the privileged call, the
operation returns failure and yet the "resumed" event IS broadcast —
contradicting the claim that no transport/availability-layer failure at
step 5 broadcasts resume. -/
theorem C5_counterexample_recheck_fail_still_resumes :
    (gpm_control_suspend cfgLibsecret envRecheckFail).ret = false ∧
    Event.emitResume TransitionKind.suspend ∈
      (gpm_control_suspend cfgLibsecret envRecheckFail).trace := by
  decide

/-- C5 (amended): a proxy-connection failure returns failure without
broadcasting resume; a failed availability re-check also returns
failure, but the "resumed" event is still broadcast (the code falls
through to the resume emission when the logind block is skipped). -/
theorem C5_amended_transport_failure (cfg : BuildConfig) (env : Env)
    (h1 : env.logindAtEntry = true) :
    (env.logindAtCall = true → env.proxyConnectOk = false →
      (gpm_control_suspend cfg env).ret = false ∧
      Event.emitResume TransitionKind.suspend ∉
        (gpm_control_suspend cfg env).trace ∧
      (gpm_control_hibernate cfg env).ret = false ∧
      Event.emitResume TransitionKind.hibernate ∉
        (gpm_control_hibernate cfg env).trace) ∧
    (env.logindAtCall = false →
      (gpm_control_suspend cfg env).ret = false ∧
      Event.emitResume TransitionKind.suspend ∈
        (gpm_control_suspend cfg env).trace ∧
      (gpm_control_hibernate cfg env).ret = false ∧
      Event.emitResume TransitionKind.hibernate ∈
        (gpm_control_hibernate cfg env).trace) := by
  constructor
  · intro h2 h3
    refine ⟨?_, ?_, ?_, ?_⟩
    · rw [suspend_ret_formula]
      simp [h3]
    · rw [suspend_trace_proxy_fail cfg env h1 h2 h3]
      intro hmem
      rcases List.mem_append.mp hmem with hp | hl
      · exact emit_priv_not_mem_lockAndNetPre cfg env _ _
          (Event.emitResume TransitionKind.suspend) rfl hp
      · simp at hl
    · rw [hibernate_ret_formula]
      simp [h3]
    · rw [hibernate_trace_proxy_fail cfg env h1 h2 h3]
      intro hmem
      rcases List.mem_append.mp hmem with hp | hl
      · exact emit_priv_not_mem_lockAndNetPre cfg env _ _
          (Event.emitResume TransitionKind.hibernate) rfl hp
      · simp at hl
  · intro h2
    refine ⟨?_, ?_, ?_, ?_⟩
    · rw [suspend_ret_formula]
      simp [h2]
    · rw [suspend_trace_recheck_fail cfg env h1 h2]
      simp
    · rw [hibernate_ret_formula]
      simp [h2]
    · rw [hibernate_trace_recheck_fail cfg env h1 h2]
      simp

/-- Witness for the amended C5 at a concrete environment with a failed
proxy connection. -/
theorem C5_amended_transport_failure_witness :
    (gpm_control_suspend cfgLibsecret envProxyFail).ret = false ∧
    Event.emitResume TransitionKind.suspend ∉
      (gpm_control_suspend cfgLibsecret envProxyFail).trace ∧
    (gpm_control_hibernate cfgLibsecret envProxyFail).ret = false ∧
    Event.emitResume TransitionKind.hibernate ∉
      (gpm_control_hibernate cfgLibsecret envProxyFail).trace :=
  (C5_amended_transport_failure cfgLibsecret envProxyFail rfl).1 rfl rfl

/-- C6: A failure of the credential-lock step — at connect
(`secretConnectOk`), enumerate (`secretCollectionsNonEmpty`), or lock
(`numSecretsLocked`, `keyringLockOk`) — does not change the operation's
outcome: whatever those four outcomes are, an otherwise-successful call
still returns success, the sleep and resume events still fire, and the
privileged call is still made; and the boolean result equals the result
under fully-successful locking. -/
theorem C6_lock_failure_immaterial (cfg : BuildConfig) (env : Env)
    (c ce : Bool) (n : Int) (kb : Bool)
    (h1 : env.logindAtEntry = true) (h2 : env.logindAtCall = true)
    (h3 : env.proxyConnectOk = true) :
    (gpm_control_suspend cfg (env.withLockOutcomes c ce n kb)).ret =
      (gpm_control_suspend cfg (env.withLockOutcomes true true 1 true)).ret ∧
    (gpm_control_hibernate cfg (env.withLockOutcomes c ce n kb)).ret =
      (gpm_control_hibernate cfg (env.withLockOutcomes true true 1 true)).ret ∧
    (gpm_control_suspend cfg (env.withLockOutcomes c ce n kb)).ret = true ∧
    Event.emitSleep TransitionKind.suspend ∈
      (gpm_control_suspend cfg (env.withLockOutcomes c ce n kb)).trace ∧
    Event.privCall PrivMethod.Suspend false ∈
      (gpm_control_suspend cfg (env.withLockOutcomes c ce n kb)).trace ∧
    Event.emitResume TransitionKind.suspend ∈
      (gpm_control_suspend cfg (env.withLockOutcomes c ce n kb)).trace ∧
    (gpm_control_hibernate cfg (env.withLockOutcomes c ce n kb)).ret = true ∧
    Event.emitSleep TransitionKind.hibernate ∈
      (gpm_control_hibernate cfg (env.withLockOutcomes c ce n kb)).trace ∧
    Event.privCall PrivMethod.Hibernate false ∈
      (gpm_control_hibernate cfg (env.withLockOutcomes c ce n kb)).trace ∧
    Event.emitResume TransitionKind.hibernate ∈
      (gpm_control_hibernate cfg (env.withLockOutcomes c ce n kb)).trace := by
  have h1a : (env.withLockOutcomes c ce n kb).logindAtEntry = true := h1
  have h2a : (env.withLockOutcomes c ce n kb).logindAtCall = true := h2
  have h3a : (env.withLockOutcomes c ce n kb).proxyConnectOk = true := h3
  refine ⟨?_, ?_, ?_, ?_, ?_, ?_, ?_, ?_, ?_, ?_⟩
  · rw [suspend_ret_formula, suspend_ret_formula]
    simp [Env.withLockOutcomes]
  · rw [hibernate_ret_formula, hibernate_ret_formula]
    simp [Env.withLockOutcomes]
  · rw [suspend_ret_formula]
    simp [Env.withLockOutcomes, h1, h2, h3]
  · rw [suspend_trace_dispatch cfg _ h1a h2a h3a]
    simp
  · rw [suspend_trace_dispatch cfg _ h1a h2a h3a]
    simp
  · rw [suspend_trace_dispatch cfg _ h1a h2a h3a]
    simp
  · rw [hibernate_ret_formula]
    simp [Env.withLockOutcomes, h1, h2, h3]
  · rw [hibernate_trace_dispatch cfg _ h1a h2a h3a]
    simp
  · rw [hibernate_trace_dispatch cfg _ h1a h2a h3a]
    simp
  · rw [hibernate_trace_dispatch cfg _ h1a h2a h3a]
    simp

/-- Witness for C6: all four lock outcomes failing on an otherwise
cooperative environment. -/
theorem C6_lock_failure_immaterial_witness :
    (gpm_control_suspend cfgBoth
        (envAllOk.withLockOutcomes false false (-1) false)).ret =
      (gpm_control_suspend cfgBoth
        (envAllOk.withLockOutcomes true true 1 true)).ret ∧
    (gpm_control_hibernate cfgBoth
        (envAllOk.withLockOutcomes false false (-1) false)).ret =
      (gpm_control_hibernate cfgBoth
        (envAllOk.withLockOutcomes true true 1 true)).ret ∧
    (gpm_control_suspend cfgBoth
        (envAllOk.withLockOutcomes false false (-1) false)).ret = true ∧
    Event.emitSleep TransitionKind.suspend ∈
      (gpm_control_suspend cfgBoth
        (envAllOk.withLockOutcomes false false (-1) false)).trace ∧
    Event.privCall PrivMethod.Suspend false ∈
      (gpm_control_suspend cfgBoth
        (envAllOk.withLockOutcomes false false (-1) false)).trace ∧
    Event.emitResume TransitionKind.suspend ∈
      (gpm_control_suspend cfgBoth
        (envAllOk.withLockOutcomes false false (-1) false)).trace ∧
    (gpm_control_hibernate cfgBoth
        (envAllOk.withLockOutcomes false false (-1) false)).ret = true ∧
    Event.emitSleep TransitionKind.hibernate ∈
      (gpm_control_hibernate cfgBoth
        (envAllOk.withLockOutcomes false false (-1) false)).trace ∧
    Event.privCall PrivMethod.Hibernate false ∈
      (gpm_control_hibernate cfgBoth
        (envAllOk.withLockOutcomes false false (-1) false)).trace ∧
    Event.emitResume TransitionKind.hibernate ∈
      (gpm_control_hibernate cfgBoth
        (envAllOk.withLockOutcomes false false (-1) false)).trace :=
  C6_lock_failure_immaterial cfgBoth envAllOk false false (-1) false
    rfl rfl rfl

/-- C7 counterexample: with the login manager reported available at
entry but the D-Bus proxy connection failing, shutdown() issues zero
PowerOff calls (and returns failure) — contradicting the claim that
whenever the login manager is available exactly one PowerOff call is
issued. -/
theorem C7_counterexample_connect_fail_no_poweroff :
    envProxyFail.logindAtEntry = true ∧
    (gpm_control_shutdown envProxyFail).ret = false ∧
    (gpm_control_shutdown envProxyFail).trace.count
      (Event.privCall PrivMethod.PowerOff false) = 0 := by
  decide

/-- C7 (amended): shutdown() returns failure immediately with no side
effects when the login manager is unavailable; when it is available and
the connection to it succeeds, it issues exactly one PowerOff call with
the interactive flag false and returns that call's outcome; when the
connection fails it returns failure without any PowerOff call; and it
never broadcasts "about to sleep" or "resumed" events. -/
theorem C7_amended_shutdown_behavior (env : Env) :
    (env.logindAtEntry = false →
      gpm_control_shutdown env = ⟨false, [], false⟩) ∧
    (env.logindAtEntry = true → env.proxyConnectOk = true →
      (gpm_control_shutdown env).trace =
        [Event.privProxyConnect,
         Event.privCall PrivMethod.PowerOff false] ∧
      (gpm_control_shutdown env).ret = !env.dbusCallErr) ∧
    (env.logindAtEntry = true → env.proxyConnectOk = false →
      gpm_control_shutdown env =
        ⟨false, [Event.privProxyConnect], false⟩) ∧
    (∀ k, Event.emitSleep k ∉ (gpm_control_shutdown env).trace ∧
          Event.emitResume k ∉ (gpm_control_shutdown env).trace) := by
  unfold gpm_control_shutdown gpm_control_systemd_shutdown
  cases hE : env.logindAtEntry <;>
    cases hP : env.proxyConnectOk <;>
      cases hD : env.dbusCallErr <;>
        simp [hE, hP, hD]

/-- Witness for the amended C7 at a concrete environment where the
PowerOff call is dispatched. -/
theorem C7_amended_shutdown_behavior_witness :
    (gpm_control_shutdown envAllOk).trace =
      [Event.privProxyConnect,
       Event.privCall PrivMethod.PowerOff false] ∧
    (gpm_control_shutdown envAllOk).ret = !envAllOk.dbusCallErr :=
  (C7_amended_shutdown_behavior envAllOk).2.1 rfl rfl

/-- C8 counterexample: with the quiesce-network setting true at both
reads but the proxy connection failing, the pre-sleep quiesce is
applied and the post-wake action is NOT invoked — contradicting the
claim that the post-wake action is invoked if and only if the pre-sleep
quiesce was applied in the same invocation. -/
theorem C8_counterexample_pre_applied_no_wake :
    Event.nmSleepCall ∈
      (gpm_control_suspend cfgLibsecret envProxyFail).trace ∧
    Event.nmWakeCall ∉
      (gpm_control_suspend cfgLibsecret envProxyFail).trace := by
  decide

/-- C8 (amended): the network pre-sleep action is invoked if and only
if the entry precondition held and the quiesce-network-on-sleep setting
was true at that invocation's fresh pre-sleep read; the post-wake
action is invoked if and only if the invocation did not abort early (at
the entry gate or on a failed proxy connection) and the setting is true
at the fresh post-resume re-read — it is gated by the re-read, not by
whether the pre-sleep quiesce was applied. -/
theorem C8_amended_network_quiesce (cfg : BuildConfig) (env : Env) :
    (Event.nmSleepCall ∈ (gpm_control_suspend cfg env).trace ↔
      (env.logindAtEntry = true ∧ env.nmSleepPre = true)) ∧
    (Event.nmWakeCall ∈ (gpm_control_suspend cfg env).trace ↔
      (env.logindAtEntry = true ∧
       (env.logindAtCall = false ∨ env.proxyConnectOk = true) ∧
       env.nmSleepPost = true)) ∧
    (Event.nmSleepCall ∈ (gpm_control_hibernate cfg env).trace ↔
      (env.logindAtEntry = true ∧ env.nmSleepPre = true)) ∧
    (Event.nmWakeCall ∈ (gpm_control_hibernate cfg env).trace ↔
      (env.logindAtEntry = true ∧
       (env.logindAtCall = false ∨ env.proxyConnectOk = true) ∧
       env.nmSleepPost = true)) :=
  ⟨suspend_nmSleep_iff cfg env, suspend_nmWake_iff cfg env,
   hibernate_nmSleep_iff cfg env, hibernate_nmWake_iff cfg env⟩

/-- C3 (code-bug demonstration): in a libsecret build, with
lock-keyring-on-suspend true and lock-keyring-on-hibernate false,
hibernate() reads the SUSPEND key for its keyring-lock policy and locks
the keyring, never consulting the hibernate key — while in the same
function the gnome-keyring branch (enabled in a both-back-ends build)
does consult the hibernate key.  So suspend() and hibernate() do not
differ in the way the claim states: hibernate's libsecret branch reads
the lock-keyring-on-suspend key (a copy-paste slip from suspend()). -/
theorem C3_hibernate_libsecret_reads_suspend_key :
    Event.readSetting SettingsKey.lockKeyringSuspend true ∈
      (gpm_control_hibernate cfgLibsecret envHibKeyOff).trace ∧
    Event.secretServiceConnect ∈
      (gpm_control_hibernate cfgLibsecret envHibKeyOff).trace ∧
    (∀ v, Event.readSetting SettingsKey.lockKeyringHibernate v ∉
      (gpm_control_hibernate cfgLibsecret envHibKeyOff).trace) ∧
    Event.readSetting SettingsKey.lockKeyringHibernate false ∈
      (gpm_control_hibernate cfgBoth envHibKeyOff).trace := by
  decide

/-- C9: at most one live Controller instance exists per process: a
construction request while an instance is live returns that same
instance, adds a reference and allocates nothing; releasing a reference
destroys the instance only when it was the last one, at which point the
weak self-pointer is cleared; and a construction request after that
creates a fresh instance distinct from the old one.  Well-formedness of
the allocator state is preserved throughout. -/
theorem C9_singleton_lifecycle (s : SingletonState) (i : Nat)
    (hwf : s.WF) (hobj : s.obj = some i) :
    (gpm_control_new s).1 = i ∧
    (gpm_control_new s).2.obj = some i ∧
    (gpm_control_new s).2.nextId = s.nextId ∧
    (gpm_control_new s).2.WF ∧
    (2 ≤ s.refs → (gpm_control_unref s).obj = some i) ∧
    (s.refs = 1 →
      (gpm_control_unref s).obj = none ∧
      (gpm_control_unref s).WF ∧
      (gpm_control_new (gpm_control_unref s)).1 ≠ i ∧
      (gpm_control_new (gpm_control_unref s)).2.WF) := by
  have hlt : i < s.nextId := hwf i hobj
  refine ⟨?_, ?_, ?_, ?_, ?_, ?_⟩
  · simp [gpm_control_new, hobj]
  · simp [gpm_control_new, hobj]
  · simp [gpm_control_new, hobj]
  · intro j hj
    simp [gpm_control_new, hobj] at hj ⊢
    subst hj
    exact hlt
  · intro h2
    have hle : ¬ s.refs ≤ 1 := by omega
    simp [gpm_control_unref, hobj, hle]
  · intro h1
    have hun : gpm_control_unref s = { s with obj := none, refs := 0 } := by
      simp [gpm_control_unref, hobj, h1]
    refine ⟨?_, ?_, ?_, ?_⟩
    · rw [hun]
    · intro j hj
      rw [hun] at hj
      simp at hj
    · rw [hun]
      simp [gpm_control_new]
      omega
    · intro j hj
      rw [hun] at hj
      simp [gpm_control_new] at hj ⊢
      subst hj
      rw [hun]
      simp

/-- Witness for C9 at a concrete state: one live instance with id 5,
one outstanding reference, allocator at 6. -/
theorem C9_singleton_lifecycle_witness :
    (gpm_control_new ⟨some 5, 1, 6⟩).1 = 5 ∧
    (gpm_control_new ⟨some 5, 1, 6⟩).2.obj = some 5 ∧
    (gpm_control_new ⟨some 5, 1, 6⟩).2.nextId = 6 ∧
    (gpm_control_new ⟨some 5, 1, 6⟩).2.WF ∧
    (2 ≤ 1 → (gpm_control_unref ⟨some 5, 1, 6⟩).obj = some 5) ∧
    (1 = 1 →
      (gpm_control_unref ⟨some 5, 1, 6⟩).obj = none ∧
      (gpm_control_unref ⟨some 5, 1, 6⟩).WF ∧
      (gpm_control_new (gpm_control_unref ⟨some 5, 1, 6⟩)).1 ≠ 5 ∧
      (gpm_control_new (gpm_control_unref ⟨some 5, 1, 6⟩)).2.WF) :=
  C9_singleton_lifecycle ⟨some 5, 1, 6⟩ 5
    (fun j hj => by simp at hj; subst hj; decide) rfl

/-- C10: when the lock-keyring setting consulted by the libsecret block
is true and the secret-service connect step fails, or the lock step
fails, suspend() and hibernate() return success (TRUE) while the
caller's error out-parameter has been written — so a success return
does not imply the error out-parameter was left untouched. -/
theorem C10_success_with_error_written (cfg : BuildConfig) (env : Env)
    (hls : cfg.withLibsecret = true) (hkey : env.lockSuspendKey = true)
    (h1 : env.logindAtEntry = true) (h2 : env.logindAtCall = true)
    (h3 : env.proxyConnectOk = true)
    (hfail : env.secretConnectOk = false ∨
      (env.secretConnectOk = true ∧ env.secretCollectionsNonEmpty = true ∧
       env.numSecretsLocked < 0)) :
    ((gpm_control_suspend cfg env).ret = true ∧
     (gpm_control_suspend cfg env).errorWritten = true) ∧
    ((gpm_control_hibernate cfg env).ret = true ∧
     (gpm_control_hibernate cfg env).errorWritten = true) := by
  have herr : (libsecretLockBlock env SettingsKey.lockKeyringSuspend
      env.lockSuspendKey).2 = true := by
    rcases hfail with hc | ⟨hck, hne, hn⟩
    · simp [libsecretLockBlock, hkey, hc]
    · simp [libsecretLockBlock, hkey, hck, hne, hn]
  refine ⟨⟨?_, ?_⟩, ?_, ?_⟩
  · rw [suspend_ret_formula]
    simp [h1, h2, h3]
  · rw [suspend_errW_formula]
    simp [h1, hls, herr]
  · rw [hibernate_ret_formula]
    simp [h1, h2, h3]
  · rw [hibernate_errW_formula]
    simp [h1, hls, herr]

/-- Witness for C10 at a concrete environment whose secret-service
connection fails. -/
theorem C10_success_with_error_written_witness :
    ((gpm_control_suspend cfgLibsecret envSecretFail).ret = true ∧
     (gpm_control_suspend cfgLibsecret envSecretFail).errorWritten = true) ∧
    ((gpm_control_hibernate cfgLibsecret envSecretFail).ret = true ∧
     (gpm_control_hibernate cfgLibsecret envSecretFail).errorWritten = true) :=
  C10_success_with_error_written cfgLibsecret envSecretFail
    rfl rfl rfl rfl rfl (Or.inl rfl)
